import Mathlib

/-!
Verification of the non-blocking TCP connection-establishment core
(`socket_linux.go` of the tcp-shaker repository) against its
natural-language specification.

The Go code is a thin layer over Linux system calls.  We embed it
shallowly: every system call the code performs is an oracle input (a
field of an oracle structure supplying the call's raw result), and every
side effect the code requests from the kernel (closing a descriptor,
setting a socket option, ...) is recorded in an explicit effect trace.
The embedded functions are then pure Lean functions from oracle and
arguments to the Go function's return values plus the effect trace,
translated line by line from the source.
-/

namespace TcpShaker

/-! ## Errno and socket-level constants (Linux amd64 values) -/

def EINTR : Nat := 4
def EINVAL : Nat := 22
def EISCONN : Nat := 106
def EALREADY : Nat := 114
def EINPROGRESS : Nat := 115

def AF_INET : Nat := 2
def AF_INET6 : Nat := 10
def SOCK_STREAM : Nat := 1
def IPPROTO_TCP : Nat := 6
def TCP_QUICKACK : Nat := 12
def SOL_SOCKET : Nat := 1
def SO_LINGER : Nat := 13
def SO_ERROR : Nat := 4
def EPOLL_CLOEXEC : Nat := 524288
def EPOLLIN : Nat := 1
def EPOLLOUT : Nat := 4
def EPOLLET : Nat := 2147483648
def EPOLL_CTL_ADD : Nat := 1

/-- `const maxEpollEvents = 32` (line 13): the capacity of the event
array handed to `unix.EpollWait` in `pollEvents`. -/
def maxEpollEvents : Nat := 32

/-! ## Go errors

The code surfaces raw `unix.Errno` values, `os.NewSyscallError`
wrappers (a syscall name plus the raw cause), the connect error built
by `newErrConnect`, and `net.AddrError` / resolution errors from
`net.ResolveTCPAddr`.  One inductive covers them all. -/

inductive GoError where
  /-- a raw `unix.Errno` -/
  | errno (e : Nat)
  /-- `os.NewSyscallError(name, cause)` -/
  | syscallError (name : String) (cause : GoError)
  /-- the error built by `newErrConnect(errCode)` -/
  | errConnect (code : Int)
  /-- `net.AddrError{Err: err, Addr: addr}` -/
  | addrError (err : String) (addr : String)
  /-- an opaque resolution failure returned by `net.ResolveTCPAddr` -/
  | resolution (msg : String)
  deriving DecidableEq

/-! ## The connect classification (lines 144-174) -/

/-- `connect` (lines 144-174): classify the raw result of the
non-blocking `unix.Connect` syscall.  The raw result is the oracle
input `serr` (`none` for a nil error, `some e` for errno `e`); the
descriptor and address only feed the syscall itself, so they do not
appear.  `goos` is `runtime.GOOS`. -/
def connect (goos : String) (serr : Option Nat) : Bool × Option Nat :=
  match serr with
  | some e =>
    if e = EALREADY ∨ e = EINPROGRESS ∨ e = EINTR then
      -- Connection could not be made immediately but asynchronously.
      (false, none)
    else if e = EISCONN then
      -- The specified socket is already connected.
      (true, none)
    else if e = EINVAL then
      -- On Solaris EINVAL can mean the socket has already been
      -- accepted and closed by the server; treated as success there.
      if goos = "solaris" then (true, none) else (false, some e)
    else
      -- Connect error.
      (false, some e)
  | none => (true, none)

/-- C1: connect classifies the raw syscall result: EALREADY,
EINPROGRESS and EINTR give (false, nil); nil and EISCONN give
(true, nil); EINVAL gives (true, nil) exactly on Solaris and
(false, EINVAL) everywhere else; every other raw error e gives
(false, e). -/
theorem connect_classifies (goos : String) (serr : Option Nat) :
    ((serr = some EALREADY ∨ serr = some EINPROGRESS ∨ serr = some EINTR) →
      connect goos serr = (false, none)) ∧
    ((serr = none ∨ serr = some EISCONN) → connect goos serr = (true, none)) ∧
    (serr = some EINVAL → goos = "solaris" → connect goos serr = (true, none)) ∧
    (serr = some EINVAL → goos ≠ "solaris" → connect goos serr = (false, some EINVAL)) ∧
    (∀ e, serr = some e → e ∉ [EALREADY, EINPROGRESS, EINTR, EISCONN, EINVAL] →
      connect goos serr = (false, some e)) := by
  refine ⟨?_, ?_, ?_, ?_, ?_⟩
  · rintro (rfl | rfl | rfl) <;> simp [connect, EALREADY, EINPROGRESS, EINTR]
  · rintro (rfl | rfl) <;> simp [connect, EISCONN, EALREADY, EINPROGRESS, EINTR]
  · rintro rfl rfl
    simp [connect, EINVAL, EALREADY, EINPROGRESS, EINTR, EISCONN]
  · rintro rfl hgoos
    simp [connect, EINVAL, EALREADY, EINPROGRESS, EINTR, EISCONN, hgoos]
  · rintro e rfl hnot
    simp only [List.mem_cons, List.not_mem_nil, or_false, not_or] at hnot
    obtain ⟨h1, h2, h3, h4, h5⟩ := hnot
    simp [connect, h1, h2, h3, h4, h5]

/-- Witness for C1: the classification evaluated on one concrete input
from each class. -/
theorem connect_classifies_witness :
    connect "linux" (some 115) = (false, none) ∧
    connect "linux" none = (true, none) ∧
    connect "solaris" (some 22) = (true, none) ∧
    connect "linux" (some 22) = (false, some 22) ∧
    connect "linux" (some 111) = (false, some 111) :=
  ⟨(connect_classifies "linux" (some 115)).1 (Or.inr (Or.inl rfl)),
   (connect_classifies "linux" none).2.1 (Or.inl rfl),
   (connect_classifies "solaris" (some 22)).2.2.1 rfl rfl,
   (connect_classifies "linux" (some 22)).2.2.2.1 rfl (by decide),
   (connect_classifies "linux" (some 111)).2.2.2.2 111 rfl (by decide)⟩

/-! ## Socket creation (lines 16-63)

Each kernel-visible side effect requested during socket creation is
recorded in an effect trace, in the order the code performs it.  The
trace lets us state which descriptors were closed on a failure path. -/

inductive Effect where
  /-- `unix.Socket(family, typ, proto)` -/
  | socket (family typ proto : Nat)
  /-- `unix.CloseOnExec(fd)` -/
  | closeOnExec (fd : Int)
  /-- `unix.SetNonblock(fd, nonblocking)` -/
  | setNonblock (fd : Int) (nonblocking : Bool)
  /-- `unix.SetsockoptInt(fd, level, opt, value)` -/
  | setsockoptInt (fd : Int) (level opt : Nat) (value : Int)
  /-- `unix.SetsockoptLinger(fd, level, opt, l)` -/
  | setsockoptLinger (fd : Int) (level opt : Nat) (onoff linger : Int)
  /-- `unix.Close(fd)` -/
  | close (fd : Int)
  deriving DecidableEq

/-- `unix.Linger` -/
structure Linger where
  onoff : Int
  linger : Int
  deriving DecidableEq

/-- `var zeroLinger = unix.Linger{Onoff: 1, Linger: 0}` (line 58). -/
def zeroLinger : Linger := { onoff := 1, linger := 0 }

/-- Oracle for the system calls made during socket creation: the raw
result of `unix.Socket` (descriptor and error, as Go returns both),
and the error results of `unix.SetNonblock`, the `TCP_QUICKACK`
`unix.SetsockoptInt`, and `unix.SetsockoptLinger`. -/
structure SockOracle where
  socketRes : Int × Option Nat
  setNonblockErr : Option Nat
  quickAckErr : Option Nat
  lingerErr : Option Nat

/-- `_createSocket` (lines 43-47): `unix.Socket(family, SOCK_STREAM, 0)`
followed unconditionally by `unix.CloseOnExec(fd)`; returns the raw
descriptor and error. -/
def _createSocket (o : SockOracle) (family : Nat) :
    (Int × Option GoError) × List Effect :=
  let (fd, err) := o.socketRes
  ((fd, err.map .errno),
   [.socket family SOCK_STREAM 0, .closeOnExec fd])

/-- `_setSockOpts` (lines 50-56): `unix.SetNonblock(fd, true)`, and if
that succeeded, `unix.SetsockoptInt(fd, IPPROTO_TCP, TCP_QUICKACK, 0)`. -/
def _setSockOpts (o : SockOracle) (fd : Int) :
    Option GoError × List Effect :=
  match o.setNonblockErr with
  | some e => (some (.errno e), [.setNonblock fd true])
  | none =>
    (o.quickAckErr.map .errno,
     [.setNonblock fd true, .setsockoptInt fd IPPROTO_TCP TCP_QUICKACK 0])

/-- `_setZeroLinger` (lines 61-63): `unix.SetsockoptLinger(fd,
SOL_SOCKET, SO_LINGER, &zeroLinger)`. -/
def _setZeroLinger (o : SockOracle) (fd : Int) :
    Option GoError × List Effect :=
  (o.lingerErr.map .errno,
   [.setsockoptLinger fd SOL_SOCKET SO_LINGER zeroLinger.onoff zeroLinger.linger])

/-- `_createNonBlockingSocket` (lines 28-40): create the socket
(returning `(0, err)` on failure), then set the options; on an option
failure `unix.Close(fd)` runs and `(fd, err)` is returned. -/
def _createNonBlockingSocket (o : SockOracle) (family : Nat) :
    (Int × Option GoError) × List Effect :=
  let ((fd, err), effs) := _createSocket o family
  match err with
  | some e => ((0, some e), effs)
  | none =>
    let (err2, effs2) := _setSockOpts o fd
    match err2 with
    | some e => ((fd, some e), effs ++ effs2 ++ [.close fd])
    | none => ((fd, none), effs ++ effs2)

/-- `createSocketZeroLinger` (lines 16-25): create the non-blocking
socket; if that succeeded and `zeroLinger` was requested, set
`SO_LINGER` to the zero-linger value, overwriting `err` with that
call's result.  The descriptor is returned in every case. -/
def createSocketZeroLinger (o : SockOracle) (family : Nat) (zl : Bool) :
    (Int × Option GoError) × List Effect :=
  let ((fd, err), effs) := _createNonBlockingSocket o family
  match err with
  | none =>
    if zl then
      let (err2, effs2) := _setZeroLinger o fd
      ((fd, err2), effs ++ effs2)
    else ((fd, none), effs)
  | some e => ((fd, some e), effs)

/-- An oracle on which every system call succeeds, handing out
descriptor 7. -/
def sockOracleOk : SockOracle :=
  { socketRes := (7, none), setNonblockErr := none,
    quickAckErr := none, lingerErr := none }

/-- An oracle on which only the `SO_LINGER` option call fails
(with EINVAL = 22). -/
def sockOracleLingerFail : SockOracle :=
  { socketRes := (7, none), setNonblockErr := none,
    quickAckErr := none, lingerErr := some 22 }

/-- Counterexample to C2: when the zero-linger step fails after the raw
descriptor exists, `createSocketZeroLinger` returns the error without
ever closing descriptor 7 — the trace holds no close, so the
descriptor leaks on this failure path. -/
theorem createSocketZeroLinger_leaks_on_linger_failure :
    (createSocketZeroLinger sockOracleLingerFail AF_INET true).1
      = (7, some (.errno 22)) ∧
    Effect.close 7 ∉ (createSocketZeroLinger sockOracleLingerFail AF_INET true).2 := by
  constructor
  · rfl
  · decide

/-- C2 (amended): after the raw descriptor exists, a failure setting
non-blocking or quick-ack closes the descriptor before the error is
returned, but a failure setting zero-linger returns the error without
closing the descriptor. -/
theorem createSocketZeroLinger_cleanup (o : SockOracle) (family : Nat)
    (zl : Bool) (fd : Int) (hs : o.socketRes = (fd, none)) :
    (∀ e, o.setNonblockErr = some e →
      (createSocketZeroLinger o family zl).1.2 = some (.errno e) ∧
      Effect.close fd ∈ (createSocketZeroLinger o family zl).2) ∧
    (o.setNonblockErr = none → ∀ e, o.quickAckErr = some e →
      (createSocketZeroLinger o family zl).1.2 = some (.errno e) ∧
      Effect.close fd ∈ (createSocketZeroLinger o family zl).2) ∧
    (o.setNonblockErr = none → o.quickAckErr = none → zl = true →
      ∀ e, o.lingerErr = some e →
      (createSocketZeroLinger o family zl).1 = (fd, some (.errno e)) ∧
      Effect.close fd ∉ (createSocketZeroLinger o family zl).2) := by
  obtain ⟨sres, nbe, qae, lge⟩ := o
  simp only [SockOracle.mk.injEq] at hs ⊢
  refine ⟨?_, ?_, ?_⟩
  · rintro e rfl
    simp [createSocketZeroLinger, _createNonBlockingSocket, _createSocket,
      _setSockOpts, hs]
  · rintro rfl e rfl
    simp [createSocketZeroLinger, _createNonBlockingSocket, _createSocket,
      _setSockOpts, hs]
  · rintro rfl rfl rfl e rfl
    simp [createSocketZeroLinger, _createNonBlockingSocket, _createSocket,
      _setSockOpts, _setZeroLinger, hs]

/-- Witness for C2 (amended): the three failure paths evaluated on
concrete oracles. -/
theorem createSocketZeroLinger_cleanup_witness :
    ((createSocketZeroLinger
        { socketRes := (7, none), setNonblockErr := some 22,
          quickAckErr := none, lingerErr := none } AF_INET true).1.2
      = some (.errno 22) ∧
     Effect.close 7 ∈ (createSocketZeroLinger
        { socketRes := (7, none), setNonblockErr := some 22,
          quickAckErr := none, lingerErr := none } AF_INET true).2) ∧
    ((createSocketZeroLinger
        { socketRes := (7, none), setNonblockErr := none,
          quickAckErr := some 22, lingerErr := none } AF_INET true).1.2
      = some (.errno 22) ∧
     Effect.close 7 ∈ (createSocketZeroLinger
        { socketRes := (7, none), setNonblockErr := none,
          quickAckErr := some 22, lingerErr := none } AF_INET true).2) ∧
    ((createSocketZeroLinger sockOracleLingerFail AF_INET true).1
      = (7, some (.errno 22)) ∧
     Effect.close 7 ∉ (createSocketZeroLinger sockOracleLingerFail AF_INET true).2) :=
  ⟨(createSocketZeroLinger_cleanup _ AF_INET true 7 rfl).1 22 rfl,
   (createSocketZeroLinger_cleanup _ AF_INET true 7 rfl).2.1 rfl 22 rfl,
   (createSocketZeroLinger_cleanup sockOracleLingerFail AF_INET true 7 rfl).2.2
     rfl rfl rfl 22 rfl⟩

/-- Modelled from the spec: the spec claims every successfully created
descriptor "has delayed acknowledgment disabled (quick-ack enabled)".
Under Linux semantics the `TCP_QUICKACK` option enables quick
acknowledgments exactly when set to a nonzero value, so quick-ack is
enabled by the creation trace iff it sets `TCP_QUICKACK` on the
descriptor to a nonzero value. -/
def quickAckEnabled (effs : List Effect) (fd : Int) : Bool :=
  effs.any fun e =>
    match e with
    | .setsockoptInt f level opt v =>
      f = fd && level = IPPROTO_TCP && opt = TCP_QUICKACK && v ≠ 0
    | _ => false

/-- Counterexample to C3: on a fully successful creation of descriptor
7, the trace sets `TCP_QUICKACK` to 0 — quick-ack is disabled, not
enabled, on the returned descriptor. -/
theorem createSocket_quickAck_disabled :
    (createSocketZeroLinger sockOracleOk AF_INET false).1 = (7, none) ∧
    Effect.setsockoptInt 7 IPPROTO_TCP TCP_QUICKACK 0
      ∈ (createSocketZeroLinger sockOracleOk AF_INET false).2 ∧
    quickAckEnabled (createSocketZeroLinger sockOracleOk AF_INET false).2 7
      = false := by
  refine ⟨rfl, by decide, by decide⟩

/-- C3 (amended): every descriptor successfully returned by
`createSocketZeroLinger` was allocated as a stream socket of the
requested family, marked close-on-exec, set non-blocking, and had its
`TCP_QUICKACK` option set to 0 (a request to disable quick
acknowledgments, leaving delayed acknowledgment in force); the
descriptor was not closed. -/
theorem createSocket_success_options (o : SockOracle) (family : Nat)
    (zl : Bool) (fd : Int)
    (h : (createSocketZeroLinger o family zl).1 = (fd, none)) :
    Effect.socket family SOCK_STREAM 0
      ∈ (createSocketZeroLinger o family zl).2 ∧
    Effect.closeOnExec fd ∈ (createSocketZeroLinger o family zl).2 ∧
    Effect.setNonblock fd true ∈ (createSocketZeroLinger o family zl).2 ∧
    Effect.setsockoptInt fd IPPROTO_TCP TCP_QUICKACK 0
      ∈ (createSocketZeroLinger o family zl).2 ∧
    Effect.close fd ∉ (createSocketZeroLinger o family zl).2 := by
  obtain ⟨⟨sfd, serr⟩, nbe, qae, lge⟩ := o
  cases serr with
  | some e =>
    simp [createSocketZeroLinger, _createNonBlockingSocket, _createSocket] at h
  | none =>
    cases nbe with
    | some e =>
      simp [createSocketZeroLinger, _createNonBlockingSocket, _createSocket,
        _setSockOpts] at h
    | none =>
      cases qae with
      | some e =>
        simp [createSocketZeroLinger, _createNonBlockingSocket, _createSocket,
          _setSockOpts] at h
      | none =>
        cases zl with
        | false =>
          simp [createSocketZeroLinger, _createNonBlockingSocket, _createSocket,
            _setSockOpts] at h ⊢
          simp [h]
        | true =>
          cases lge with
          | some e =>
            simp [createSocketZeroLinger, _createNonBlockingSocket,
              _createSocket, _setSockOpts, _setZeroLinger] at h
          | none =>
            simp [createSocketZeroLinger, _createNonBlockingSocket,
              _createSocket, _setSockOpts, _setZeroLinger] at h ⊢
            simp [h]

/-- Witness for C3 (amended): the successful creation of descriptor 7
carries all four setup effects and no close. -/
theorem createSocket_success_options_witness :
    Effect.socket AF_INET SOCK_STREAM 0
      ∈ (createSocketZeroLinger sockOracleOk AF_INET true).2 ∧
    Effect.closeOnExec 7 ∈ (createSocketZeroLinger sockOracleOk AF_INET true).2 ∧
    Effect.setNonblock 7 true
      ∈ (createSocketZeroLinger sockOracleOk AF_INET true).2 ∧
    Effect.setsockoptInt 7 IPPROTO_TCP TCP_QUICKACK 0
      ∈ (createSocketZeroLinger sockOracleOk AF_INET true).2 ∧
    Effect.close 7 ∉ (createSocketZeroLinger sockOracleOk AF_INET true).2 :=
  createSocket_success_options sockOracleOk AF_INET true 7 rfl

/-! ## The poller (lines 65-111) -/

/-- Modelled from the spec: a `ReadinessEvent` pairs one registered
descriptor with an optional error.  (The repository defines the `event`
struct with fields `Fd` and `Err` outside this file; `pollEvents`
constructs it with exactly these two fields.) -/
structure Event where
  fd : Int
  err : Option GoError
  deriving DecidableEq

/-- Modelled from the spec: `newErrConnect` (defined outside this file)
wraps a nonzero pending socket error code into a descriptive
connect-error carrying the numeric cause. -/
def newErrConnect (errCode : Int) : GoError :=
  .errConnect errCode

/-- `unix.EpollEvent` as `registerEvents` fills it: the interest mask
and the descriptor (stored as an int32). -/
structure EpollEvent where
  events : Nat
  fd : Int
  deriving DecidableEq

/-- Go's `int32(x)` conversion: wrap into [-2^31, 2^31). -/
def int32Wrap (x : Int) : Int :=
  (x + 2 ^ 31) % 2 ^ 32 - 2 ^ 31

/-- Oracle for the epoll-side system calls: the raw `(fd, err)` result
of `unix.EpollCreate1(flags)`; the error result of `unix.EpollCtl(epfd,
op, fd, event)`; the result of `unix.EpollWait(epfd, buf, timeoutMS)`
as the list of descriptors the kernel wrote (in order) plus the error;
and the raw `(value, err)` result of `unix.GetsockoptInt(fd, level,
opt)`. -/
structure PollOracle where
  epollCreate1 : Nat → Int × Option Nat
  epollCtl : Int → Nat → Int → EpollEvent → Option Nat
  epollWait : Int → Int → List Int × Option Nat
  getsockoptInt : Int → Nat → Nat → Int × Option Nat

/-- `createPoller` (lines 65-71): `unix.EpollCreate1(EPOLL_CLOEXEC)`,
wrapping a failure as the named syscall error `epoll_create1`. -/
def createPoller (o : PollOracle) : Int × Option GoError :=
  let (fd, err) := o.epollCreate1 EPOLL_CLOEXEC
  match err with
  | some e => (fd, some (.syscallError "epoll_create1" (.errno e)))
  | none => (fd, none)

/-- `registerEvents` (lines 74-82): build the epoll event with interest
mask `EPOLLOUT | EPOLLIN | EPOLLET` and `Fd = int32(fd)`, then
`unix.EpollCtl(pollerFd, EPOLL_CTL_ADD, fd, &event)`; a failure is
wrapped as a named syscall error whose name interpolates the two
descriptors as `fmt.Sprintf` does. -/
def registerEvents (o : PollOracle) (pollerFd fd : Int) : Option GoError :=
  let event : EpollEvent :=
    { events := EPOLLOUT ||| EPOLLIN ||| EPOLLET, fd := int32Wrap fd }
  match o.epollCtl pollerFd EPOLL_CTL_ADD fd event with
  | some e =>
    some (.syscallError
      ("epoll_ctl(" ++ toString pollerFd ++ ", ADD, " ++ toString fd ++ ", ...)")
      (.errno e))
  | none => none

/-- The loop body of `pollEvents` (lines 97-108): translate one ready
descriptor into its event.  `evt.Err` starts as `nil`; if
`unix.GetsockoptInt(fd, SOL_SOCKET, SO_ERROR)` itself failed it is set
to the named syscall error `getsockopt`; then, whenever the returned
code is nonzero, it is overwritten with `newErrConnect(errCode)`. -/
def eventOf (o : PollOracle) (fd : Int) : Event :=
  let (errCode, gerr) := o.getsockoptInt fd SOL_SOCKET SO_ERROR
  let evtErr : Option GoError :=
    match gerr with
    | some e => some (.syscallError "getsockopt" (.errno e))
    | none => none
  let evtErr := if errCode ≠ 0 then some (newErrConnect errCode) else evtErr
  { fd := fd, err := evtErr }

/-- The body of `pollEvents` (lines 86-110) after the millisecond
timeout has been computed: `unix.EpollWait` on a `maxEpollEvents`-sized
buffer; `EINTR` is absorbed as `(nil, nil)`; any other wait failure is
wrapped as the named syscall error `epoll_wait`; otherwise each
kernel-reported descriptor becomes one `event` whose `Err` starts as
`nil`, is set to the named syscall error `getsockopt` when
`unix.GetsockoptInt(fd, SOL_SOCKET, SO_ERROR)` itself fails, and is
then overwritten with `newErrConnect(errCode)` whenever the returned
code is nonzero. -/
def pollEventsMS (o : PollOracle) (pollerFd timeoutMS : Int) :
    List Event × Option GoError :=
  let (fds, werr) := o.epollWait pollerFd timeoutMS
  match werr with
  | some e =>
    if e = EINTR then ([], none)
    else ([], some (.syscallError "epoll_wait" (.errno e)))
  | none => (fds.map (eventOf o), none)

/-- `pollEvents` (lines 84-111): compute
`timeoutMS = int(timeout.Nanoseconds() / 1000000)` — Go's `/` on int64
truncates toward zero — and run the body.  `timeout` is the requested
duration in nanoseconds. -/
def pollEvents (o : PollOracle) (pollerFd timeout : Int) :
    List Event × Option GoError :=
  pollEventsMS o pollerFd (Int.tdiv timeout 1000000)

/-- A helper fact: the event built for a ready descriptor carries that
descriptor. -/
theorem eventOf_fd (o : PollOracle) (fd : Int) : (eventOf o fd).fd = fd := rfl

/-- An oracle on which nothing is ready and every call succeeds. -/
def pollOracleIdle : PollOracle :=
  { epollCreate1 := fun _ => (3, none),
    epollCtl := fun _ _ _ _ => none,
    epollWait := fun _ _ => ([], none),
    getsockoptInt := fun _ _ _ => (0, none) }

/-- An oracle whose wait call is interrupted (EINTR = 4). -/
def pollOracleEintr : PollOracle :=
  { epollCreate1 := fun _ => (3, none),
    epollCtl := fun _ _ _ _ => none,
    epollWait := fun _ _ => ([], some 4),
    getsockoptInt := fun _ _ _ => (0, none) }

/-- An oracle whose wait call fails with EBADF = 9. -/
def pollOracleWaitFail : PollOracle :=
  { epollCreate1 := fun _ => (3, none),
    epollCtl := fun _ _ _ _ => none,
    epollWait := fun _ _ => ([], some 9),
    getsockoptInt := fun _ _ _ => (0, none) }

/-- C5: an EINTR from the underlying wait is absorbed — `pollEvents`
returns an empty event list and no error — while any other wait errno
is surfaced as the named syscall error `epoll_wait`. -/
theorem pollEvents_absorbs_eintr (o o2 : PollOracle) (pf t : Int)
    (fds fds2 : List Int) (e : Nat)
    (h1 : o.epollWait pf (Int.tdiv t 1000000) = (fds, some EINTR))
    (h2 : o2.epollWait pf (Int.tdiv t 1000000) = (fds2, some e))
    (hne : e ≠ EINTR) :
    pollEvents o pf t = ([], none) ∧
    pollEvents o2 pf t = ([], some (.syscallError "epoll_wait" (.errno e))) := by
  constructor
  · simp [pollEvents, pollEventsMS, h1]
  · simp [pollEvents, pollEventsMS, h2, hne]

/-- Witness for C5: an interrupted wait yields `([], none)`, a wait
failing with EBADF = 9 yields the named syscall error. -/
theorem pollEvents_absorbs_eintr_witness :
    pollEvents pollOracleEintr 3 1000000 = ([], none) ∧
    pollEvents pollOracleWaitFail 3 1000000
      = ([], some (.syscallError "epoll_wait" (.errno 9))) :=
  pollEvents_absorbs_eintr pollOracleEintr pollOracleWaitFail 3 1000000
    [] [] 9 rfl rfl (by decide)

/-- C7: a successful `pollEvents` call returns exactly one event per
kernel-reported ready descriptor, in kernel order and carrying that
descriptor, and — since the kernel fills a buffer of capacity
`maxEpollEvents` — at most `maxEpollEvents` events. -/
theorem pollEvents_batch (o : PollOracle) (pf t : Int) (fds : List Int)
    (h : o.epollWait pf (Int.tdiv t 1000000) = (fds, none))
    (hcap : fds.length ≤ maxEpollEvents) :
    (pollEvents o pf t).2 = none ∧
    (pollEvents o pf t).1.map Event.fd = fds ∧
    (pollEvents o pf t).1.length ≤ maxEpollEvents := by
  refine ⟨?_, ?_, ?_⟩
  · simp [pollEvents, pollEventsMS, h]
  · have hid : Event.fd ∘ eventOf o = id := funext fun fd => eventOf_fd o fd
    simp [pollEvents, pollEventsMS, h, List.map_map, hid]
  · simpa [pollEvents, pollEventsMS, h] using hcap

/-- An oracle reporting descriptors 5 and 6 ready, both with a clean
pending-error state. -/
def pollOracleTwoReady : PollOracle :=
  { epollCreate1 := fun _ => (3, none),
    epollCtl := fun _ _ _ _ => none,
    epollWait := fun _ _ => ([5, 6], none),
    getsockoptInt := fun _ _ _ => (0, none) }

/-- Witness for C7: two ready descriptors give exactly the two events,
within capacity. -/
theorem pollEvents_batch_witness :
    (pollEvents pollOracleTwoReady 3 1000000).2 = none ∧
    (pollEvents pollOracleTwoReady 3 1000000).1.map Event.fd = [5, 6] ∧
    (pollEvents pollOracleTwoReady 3 1000000).1.length ≤ maxEpollEvents :=
  pollEvents_batch pollOracleTwoReady 3 1000000 [5, 6] rfl (by decide)

/-- C9: `pollEvents` hands the kernel the whole-millisecond bound
obtained by truncating the requested duration's nanosecond count
divided by one million; for a nonnegative timeout that bound never
exceeds the request, and any positive timeout below one millisecond is
passed as zero. -/
theorem pollEvents_timeout_truncated (o : PollOracle) (pf timeout : Int) :
    pollEvents o pf timeout = pollEventsMS o pf (Int.tdiv timeout 1000000) ∧
    (0 ≤ timeout → Int.tdiv timeout 1000000 * 1000000 ≤ timeout) ∧
    (0 < timeout → timeout < 1000000 → Int.tdiv timeout 1000000 = 0) := by
  refine ⟨rfl, ?_, ?_⟩
  · intro h
    rw [Int.tdiv_eq_ediv h (by decide)]
    omega
  · intro h1 h2
    rw [Int.tdiv_eq_ediv (le_of_lt h1) (by decide)]
    omega

/-- Witness for C9: a 0.5 ms timeout is passed to the kernel as 0 ms. -/
theorem pollEvents_timeout_truncated_witness :
    pollEvents pollOracleIdle 3 500000
      = pollEventsMS pollOracleIdle 3 (Int.tdiv 500000 1000000) ∧
    Int.tdiv 500000 1000000 * 1000000 ≤ (500000 : Int) ∧
    Int.tdiv (500000 : Int) 1000000 = 0 :=
  ⟨(pollEvents_timeout_truncated pollOracleIdle 3 500000).1,
   (pollEvents_timeout_truncated pollOracleIdle 3 500000).2.1 (by decide),
   (pollEvents_timeout_truncated pollOracleIdle 3 500000).2.2 (by decide) (by decide)⟩

/-- An oracle with descriptor 5 ready whose pending-error read fails
(EBADF = 9) yet returns the nonzero value 111 (ECONNREFUSED). -/
def pollOracleReadFailNonzero : PollOracle :=
  { epollCreate1 := fun _ => (3, none),
    epollCtl := fun _ _ _ _ => none,
    epollWait := fun _ _ => ([5], none),
    getsockoptInt := fun _ _ _ => (111, some 9) }

/-- Counterexample to C4: when the pending-error read fails at the OS
level but returns a nonzero value, the event carries the connect-error
built from that value, not the read failure — the read failure is not
attached "instead". -/
theorem pollEvents_read_failure_not_attached :
    (pollEvents pollOracleReadFailNonzero 3 1000000).1
      = [{ fd := 5, err := some (newErrConnect 111) }] ∧
    { fd := 5, err := some (GoError.syscallError "getsockopt" (.errno 9)) }
      ∉ (pollEvents pollOracleReadFailNonzero 3 1000000).1 := by
  exact ⟨rfl, by decide⟩

/-- C4 (amended): for a ready descriptor, a pending-error code of zero
read without failure yields an event with no error; a nonzero code
yields the connect-error carrying that numeric cause (whether or not
the read also reported a failure); and a read failure is attached to
the event exactly when the returned code is zero. -/
theorem pollEvents_event_error_translation (o : PollOracle)
    (pf t f : Int) (fds : List Int) (code : Int)
    (hw : o.epollWait pf (Int.tdiv t 1000000) = (fds, none)) (hf : f ∈ fds) :
    (o.getsockoptInt f SOL_SOCKET SO_ERROR = (0, none) →
      Event.mk f none ∈ (pollEvents o pf t).1) ∧
    (∀ rerr, o.getsockoptInt f SOL_SOCKET SO_ERROR = (code, rerr) → code ≠ 0 →
      Event.mk f (some (newErrConnect code)) ∈ (pollEvents o pf t).1) ∧
    (∀ e, o.getsockoptInt f SOL_SOCKET SO_ERROR = (0, some e) →
      Event.mk f (some (.syscallError "getsockopt" (.errno e)))
        ∈ (pollEvents o pf t).1) := by
  have hres : (pollEvents o pf t).1 = fds.map (eventOf o) := by
    simp [pollEvents, pollEventsMS, hw]
  have hmem := List.mem_map_of_mem (eventOf o) hf
  refine ⟨?_, ?_, ?_⟩
  · intro hg
    have he : eventOf o f = Event.mk f none := by simp [eventOf, hg]
    rw [hres, ← he]
    exact hmem
  · intro rerr hg hc
    have he : eventOf o f = Event.mk f (some (newErrConnect code)) := by
      simp [eventOf, hg, hc]
    rw [hres, ← he]
    exact hmem
  · intro e hg
    have he : eventOf o f
        = Event.mk f (some (.syscallError "getsockopt" (.errno e))) := by
      simp [eventOf, hg]
    rw [hres, ← he]
    exact hmem

/-- An oracle with descriptors 5, 6 and 7 ready: 5 with a clean
pending-error state, 6 with pending error 111, 7 with a failing read
that returns 0. -/
def pollOracleMixed : PollOracle :=
  { epollCreate1 := fun _ => (3, none),
    epollCtl := fun _ _ _ _ => none,
    epollWait := fun _ _ => ([5, 6, 7], none),
    getsockoptInt := fun fd _ _ =>
      if fd = 5 then (0, none)
      else if fd = 6 then (111, none)
      else (0, some 9) }

/-- Witness for C4 (amended): the three translation cases on one
concrete ready batch. -/
theorem pollEvents_event_error_translation_witness :
    Event.mk 5 none ∈ (pollEvents pollOracleMixed 3 1000000).1 ∧
    Event.mk 6 (some (newErrConnect 111))
      ∈ (pollEvents pollOracleMixed 3 1000000).1 ∧
    Event.mk 7 (some (.syscallError "getsockopt" (.errno 9)))
      ∈ (pollEvents pollOracleMixed 3 1000000).1 :=
  ⟨(pollEvents_event_error_translation pollOracleMixed 3 1000000 5 [5, 6, 7] 0
      rfl (by decide)).1 rfl,
   (pollEvents_event_error_translation pollOracleMixed 3 1000000 6 [5, 6, 7] 111
      rfl (by decide)).2.1 none rfl (by decide),
   (pollEvents_event_error_translation pollOracleMixed 3 1000000 7 [5, 6, 7] 0
      rfl (by decide)).2.2 9 rfl⟩

/-- An oracle with descriptors 5 and 6 ready, both of whose
pending-error reads fail (EBADF = 9); the read on 5 returns the nonzero
value 111, the read on 6 returns 0. -/
def pollOracleReadFailBoth : PollOracle :=
  { epollCreate1 := fun _ => (3, none),
    epollCtl := fun _ _ _ _ => none,
    epollWait := fun _ _ => ([5, 6], none),
    getsockoptInt := fun fd _ _ =>
      if fd = 5 then (111, some 9) else (0, some 9) }

/-- C10: the nonzero-pending-error check runs after, and independently
of, the read's own failure check — when the read fails but returns a
nonzero value, the connect-error built from that value overwrites the
read-failure syscall error on the event, and the read failure is
preserved exactly when the returned value is zero. -/
theorem pollEvents_connect_error_precedence (o : PollOracle)
    (pf t f : Int) (fds : List Int) (code : Int) (e : Nat)
    (hw : o.epollWait pf (Int.tdiv t 1000000) = (fds, none))
    (hf : f ∈ fds)
    (hg : o.getsockoptInt f SOL_SOCKET SO_ERROR = (code, some e)) :
    (code ≠ 0 →
      Event.mk f (some (newErrConnect code)) ∈ (pollEvents o pf t).1) ∧
    (code = 0 →
      Event.mk f (some (.syscallError "getsockopt" (.errno e)))
        ∈ (pollEvents o pf t).1) := by
  have hres : (pollEvents o pf t).1 = fds.map (eventOf o) := by
    simp [pollEvents, pollEventsMS, hw]
  have hmem := List.mem_map_of_mem (eventOf o) hf
  constructor
  · intro hc
    have he : eventOf o f = Event.mk f (some (newErrConnect code)) := by
      simp [eventOf, hg, hc]
    rw [hres, ← he]
    exact hmem
  · rintro rfl
    have he : eventOf o f
        = Event.mk f (some (.syscallError "getsockopt" (.errno e))) := by
      simp [eventOf, hg]
    rw [hres, ← he]
    exact hmem

/-- Witness for C10: on descriptor 5 the connect-error from code 111
overwrites the failed read; on descriptor 6 the failed read (code 0) is
preserved. -/
theorem pollEvents_connect_error_precedence_witness :
    Event.mk 5 (some (newErrConnect 111))
      ∈ (pollEvents pollOracleReadFailBoth 3 1000000).1 ∧
    Event.mk 6 (some (.syscallError "getsockopt" (.errno 9)))
      ∈ (pollEvents pollOracleReadFailBoth 3 1000000).1 :=
  ⟨(pollEvents_connect_error_precedence pollOracleReadFailBoth 3 1000000 5
      [5, 6] 111 9 rfl (by decide) rfl).1 (by decide),
   (pollEvents_connect_error_precedence pollOracleReadFailBoth 3 1000000 6
      [5, 6] 0 9 rfl (by decide) rfl).2 rfl⟩

/-- An oracle on which `unix.EpollCreate1` fails with EMFILE = 24. -/
def pollOracleCreateFail : PollOracle :=
  { epollCreate1 := fun _ => (-1, some 24),
    epollCtl := fun _ _ _ _ => none,
    epollWait := fun _ _ => ([], none),
    getsockoptInt := fun _ _ _ => (0, none) }

/-- Counterexample to C8: poller-creation failure is wrapped under the
syscall name `epoll_create1`, which is not the name `epoll_create` the
claim states. -/
theorem createPoller_error_name :
    (createPoller pollOracleCreateFail).2
      = some (.syscallError "epoll_create1" (.errno 24)) ∧
    "epoll_create1" ≠ "epoll_create" :=
  ⟨rfl, by decide⟩

/-- C8 (amended): every error surfaced from poller creation, event
registration, waiting, and pending-error reading is a named syscall
error wrapping the raw cause, with the names `epoll_create1`,
`epoll_ctl(<pollerFd>, ADD, <fd>, ...)` (the two descriptors
interpolated), `epoll_wait`, and `getsockopt` respectively. -/
theorem syscallError_naming (o o2 : PollOracle) (pf fd t f : Int)
    (e1 e2 e3 e4 : Nat) (fds : List Int)
    (h1 : (o.epollCreate1 EPOLL_CLOEXEC).2 = some e1)
    (h2 : o.epollCtl pf EPOLL_CTL_ADD fd
        { events := EPOLLOUT ||| EPOLLIN ||| EPOLLET, fd := int32Wrap fd }
      = some e2)
    (h3 : o.epollWait pf (Int.tdiv t 1000000) = (fds, some e3))
    (hne : e3 ≠ EINTR)
    (h4 : o2.epollWait pf (Int.tdiv t 1000000) = ([f], none))
    (h5 : o2.getsockoptInt f SOL_SOCKET SO_ERROR = (0, some e4)) :
    (createPoller o).2 = some (.syscallError "epoll_create1" (.errno e1)) ∧
    registerEvents o pf fd
      = some (.syscallError
          ("epoll_ctl(" ++ toString pf ++ ", ADD, " ++ toString fd ++ ", ...)")
          (.errno e2)) ∧
    (pollEvents o pf t).2 = some (.syscallError "epoll_wait" (.errno e3)) ∧
    (pollEvents o2 pf t).1
      = [{ fd := f, err := some (.syscallError "getsockopt" (.errno e4)) }] := by
  refine ⟨?_, ?_, ?_, ?_⟩
  · rcases hc : o.epollCreate1 EPOLL_CLOEXEC with ⟨cfd, cerr⟩
    rw [hc] at h1
    simp only at h1
    simp [createPoller, hc, h1]
  · simp [registerEvents, h2]
  · simp [pollEvents, pollEventsMS, h3, hne]
  · simp [pollEvents, pollEventsMS, h4, eventOf, h5]

/-- An oracle on which poller creation fails with EMFILE = 24, event
registration fails with EACCES = 13 and the wait fails with EBADF = 9. -/
def pollOracleAllFail : PollOracle :=
  { epollCreate1 := fun _ => (-1, some 24),
    epollCtl := fun _ _ _ _ => some 13,
    epollWait := fun _ _ => ([], some 9),
    getsockoptInt := fun _ _ _ => (0, none) }

/-- An oracle with descriptor 5 ready whose pending-error read fails
with EBADF = 9 and returns 0. -/
def pollOracleReadFailZero : PollOracle :=
  { epollCreate1 := fun _ => (3, none),
    epollCtl := fun _ _ _ _ => none,
    epollWait := fun _ _ => ([5], none),
    getsockoptInt := fun _ _ _ => (0, some 9) }

/-- Witness for C8 (amended): all four error paths evaluated on
concrete oracles. -/
theorem syscallError_naming_witness :
    (createPoller pollOracleAllFail).2
      = some (.syscallError "epoll_create1" (.errno 24)) ∧
    registerEvents pollOracleAllFail 3 5
      = some (.syscallError
          ("epoll_ctl(" ++ toString (3 : Int) ++ ", ADD, "
            ++ toString (5 : Int) ++ ", ...)")
          (.errno 13)) ∧
    (pollEvents pollOracleAllFail 3 1000000).2
      = some (.syscallError "epoll_wait" (.errno 9)) ∧
    (pollEvents pollOracleReadFailZero 3 1000000).1
      = [{ fd := 5, err := some (.syscallError "getsockopt" (.errno 9)) }] :=
  syscallError_naming pollOracleAllFail pollOracleReadFailZero 3 5 1000000 5
    24 13 9 9 [] rfl rfl rfl (by decide) rfl rfl

/-! ## Address resolution (lines 114-141)

`parseSockAddr` calls `net.ResolveTCPAddr` (the oracle input: either a
resolution failure or a `net.TCPAddr`) and then inspects the resolved
IP with the net package's `To4` / `To16`, which we embed from the net
package source.  An IP is its byte slice. -/

/-- `net.TCPAddr` restricted to the fields `parseSockAddr` reads. -/
structure TCPAddr where
  ip : List Nat
  port : Int
  deriving DecidableEq

/-- `net.isZeros`: every byte is zero. -/
def isZeros (l : List Nat) : Bool := l.all (· = 0)

/-- `net.IP.To4`: a 4-byte IP is itself; a 16-byte IP that is an
IPv4-mapped IPv6 address (ten zero bytes then 0xff 0xff) yields its
last four bytes; anything else has no IPv4 representation. -/
def to4 (ip : List Nat) : Option (List Nat) :=
  if ip.length = 4 then some ip
  else if ip.length = 16 && isZeros (ip.take 10)
      && ip.getD 10 0 = 255 && ip.getD 11 0 = 255 then
    some (ip.drop 12)
  else none

/-- `net.v4InV6Prefix` (shortened name): the IPv4-mapped IPv6 prefix. -/
def v4InV6Pre : List Nat := [0, 0, 0, 0, 0, 0, 0, 0, 0, 0, 255, 255]

/-- `net.IP.To16`: a 4-byte IP maps into IPv6 form; a 16-byte IP is
itself; anything else has no IPv6 representation. -/
def to16 (ip : List Nat) : Option (List Nat) :=
  if ip.length = 4 then some (v4InV6Pre ++ ip)
  else if ip.length = 16 then some ip
  else none

/-- Go's `copy(dst[:], src)` into a fresh zeroed array of length `n`. -/
def copyFixed (n : Nat) (src : List Nat) : List Nat :=
  src.take n ++ List.replicate (n - src.length) 0

/-- The hex digits of a byte string, as in `net.hexString`. -/
def hexString (bs : List Nat) : String :=
  String.mk (bs.flatMap fun b =>
    ["0123456789abcdef".toList.getD (b / 16 % 16) '0',
     "0123456789abcdef".toList.getD (b % 16) '0'])

/-- `net.IP.String` restricted to the inputs it receives in
parseSockAddr's unsupported-family branch (where `To4` and `To16` are
both nil, so the length is neither 4 nor 16): `<nil>` for an empty IP,
otherwise a question mark followed by the bytes in hex. -/
def ipString (ip : List Nat) : String :=
  if ip.length = 0 then "<nil>"
  else "?" ++ hexString ip

/-- `unix.Sockaddr` as `parseSockAddr` builds it:
`unix.SockaddrInet4` or `unix.SockaddrInet6` with port and the
fixed-width address bytes. -/
inductive Sockaddr where
  | inet4 (port : Int) (addr : List Nat)
  | inet6 (port : Int) (addr : List Nat)
  deriving DecidableEq

/-- `parseSockAddr` (lines 114-141): on a resolution failure return it
with no address (family stays 0); else try the IPv4 representation,
then the IPv6 representation, and otherwise fail with the
unsupported-address-family `net.AddrError`. -/
def parseSockAddr (resolved : Except GoError TCPAddr) :
    Option Sockaddr × Nat × Option GoError :=
  match resolved with
  | .error e => (none, 0, some e)
  | .ok tAddr =>
    match to4 tAddr.ip with
    | some ip => (some (.inet4 tAddr.port (copyFixed 4 ip)), AF_INET, none)
    | none =>
      match to16 tAddr.ip with
      | some ip => (some (.inet6 tAddr.port (copyFixed 16 ip)), AF_INET6, none)
      | none =>
        (none, 0,
         some (.addrError "unsupported address family" (ipString tAddr.ip)))

/-- C6: resolution classifies as the spec says: an IPv4 representation
gives an `AF_INET` IPv4 socket address; otherwise an IPv6
representation gives an `AF_INET6` IPv6 one; neither gives the
unsupported-family error; and a failure of the textual resolution
itself propagates with no address produced. -/
theorem parseSockAddr_families (r : Except GoError TCPAddr) :
    (∀ e, r = .error e → parseSockAddr r = (none, 0, some e)) ∧
    (∀ a ip4, r = .ok a → to4 a.ip = some ip4 →
      parseSockAddr r
        = (some (.inet4 a.port (copyFixed 4 ip4)), AF_INET, none)) ∧
    (∀ a ip16, r = .ok a → to4 a.ip = none → to16 a.ip = some ip16 →
      parseSockAddr r
        = (some (.inet6 a.port (copyFixed 16 ip16)), AF_INET6, none)) ∧
    (∀ a, r = .ok a → to4 a.ip = none → to16 a.ip = none →
      parseSockAddr r
        = (none, 0,
           some (.addrError "unsupported address family" (ipString a.ip)))) := by
  refine ⟨?_, ?_, ?_, ?_⟩
  · rintro e rfl
    rfl
  · rintro a ip4 rfl h
    simp [parseSockAddr, h]
  · rintro a ip16 rfl h4 h16
    simp [parseSockAddr, h4, h16]
  · rintro a rfl h4 h16
    simp [parseSockAddr, h4, h16]

/-- Witness for C6: a failed lookup propagates; 127.0.0.1 resolves to
an AF_INET IPv4 address; ::1 resolves to an AF_INET6 IPv6 address; a
malformed 3-byte IP yields the unsupported-family error. -/
theorem parseSockAddr_families_witness :
    parseSockAddr (.error (.resolution "no such host"))
      = (none, 0, some (.resolution "no such host")) ∧
    parseSockAddr (.ok { ip := [127, 0, 0, 1], port := 80 })
      = (some (.inet4 80 (copyFixed 4 [127, 0, 0, 1])), AF_INET, none) ∧
    parseSockAddr
        (.ok { ip := [0, 0, 0, 0, 0, 0, 0, 0, 0, 0, 0, 0, 0, 0, 0, 1],
               port := 80 })
      = (some (.inet6 80
          (copyFixed 16 [0, 0, 0, 0, 0, 0, 0, 0, 0, 0, 0, 0, 0, 0, 0, 1])),
         AF_INET6, none) ∧
    parseSockAddr (.ok { ip := [1, 2, 3], port := 80 })
      = (none, 0,
         some (.addrError "unsupported address family" (ipString [1, 2, 3]))) :=
  ⟨(parseSockAddr_families _).1 _ rfl,
   (parseSockAddr_families _).2.1 _ [127, 0, 0, 1] rfl (by decide),
   (parseSockAddr_families _).2.2.1 _
     [0, 0, 0, 0, 0, 0, 0, 0, 0, 0, 0, 0, 0, 0, 0, 1] rfl (by decide) (by decide),
   (parseSockAddr_families _).2.2.2 _ rfl (by decide) (by decide)⟩

end TcpShaker
